import Mathlib

/-!
Shallow embedding of `src/tools/perplexity-search.py`, a single-file CLI that
sends one chat-completion request to the OpenRouter gateway and prints or
saves the response.  The HTTP transport, the process environment and the
filesystem are modelled as explicit parameters of the embedded functions;
Python dictionaries decoded from JSON are modelled by the inductive `JVal`,
and the Python exceptions that can escape the code (KeyError, TypeError,
IndexError, json.JSONDecodeError, OSError) by `PyExc`.
-/

namespace PerplexitySrch

/-- A decoded JSON value, as produced by Python `json.loads`.
Objects are key/value lists; a real Python dict has pairwise-distinct keys,
which theorems assume via `List.Nodup` where it matters. -/
inductive JVal where
  | null : JVal
  | bool : Bool → JVal
  | num : Int → JVal
  | str : String → JVal
  | arr : List JVal → JVal
  | obj : List (String × JVal) → JVal

/-- The Python exceptions that can propagate out of the embedded code
uncaught (a stack trace), as opposed to a `sys.exit`. -/
inductive PyExc where
  | keyError : PyExc
  | typeError : PyExc
  | indexError : PyExc
  | jsonDecodeError : PyExc
  | osError : PyExc
deriving DecidableEq

/-- Substring test, modelling Python `needle in haystack` for strings. -/
def strContains (needle hay : String) : Bool :=
  needle.isEmpty || (hay.splitOn needle).length > 1

/-- Python `key in v` for a string `key`: key membership for dicts, element
membership for lists, substring test for strings, `TypeError` otherwise. -/
def pyContainsStr (key : String) : JVal → Except PyExc Bool
  | .obj kvs => .ok (kvs.any (fun kv => kv.1 == key))
  | .arr xs =>
    .ok (xs.any (fun v => match v with | .str s => s == key | _ => false))
  | .str s => .ok (strContains key s)
  | _ => .error .typeError

/-- Python `len(v)`: defined for strings, lists and dicts, `TypeError`
otherwise. -/
def pyLen : JVal → Except PyExc Nat
  | .str s => .ok s.length
  | .arr xs => .ok xs.length
  | .obj kvs => .ok kvs.length
  | _ => .error .typeError

/-- Python `v[key]` with a string key: dict lookup (`KeyError` when the key
is absent), `TypeError` for every non-dict value. -/
def pyGetStr (v : JVal) (key : String) : Except PyExc JVal :=
  match v with
  | .obj kvs =>
    match kvs.lookup key with
    | some x => .ok x
    | none => .error .keyError
  | _ => .error .typeError

/-- Python `v[i]` with integer index `i`: list indexing (`IndexError` out of
range), one-character string for strings, `KeyError` for a string-keyed
dict, `TypeError` otherwise. -/
def pyGetIdx (v : JVal) (i : Nat) : Except PyExc JVal :=
  match v with
  | .arr xs =>
    match xs.get? i with
    | some x => .ok x
    | none => .error .indexError
  | .str s =>
    match s.data.get? i with
    | some c => .ok (.str (String.mk [c]))
    | none => .error .indexError
  | .obj _ => .error .keyError
  | _ => .error .typeError

/-- The success-path shape check and extraction of `call_openrouter`
(source lines 115-117):
`if "choices" in result and len(result["choices"]) > 0` then
`result["choices"][0]["message"]["content"]`.
`ok (some c)` is the returned content, `ok none` means the `else` branch
(unexpected-format report) is taken, `error e` an uncaught exception. -/
def extractChoice (result : JVal) : Except PyExc (Option JVal) := do
  let hasChoices ← pyContainsStr "choices" result
  if hasChoices then
    let choices ← pyGetStr result "choices"
    let n ← pyLen choices
    if n > 0 then
      let c0 ← pyGetIdx choices 0
      let msg ← pyGetStr c0 "message"
      let content ← pyGetStr msg "content"
      return some content
    else
      return none
  else
    return none

/-- Hexadecimal digit. -/
def hexDigit (n : Nat) : Char :=
  if n < 10 then Char.ofNat (48 + n) else Char.ofNat (87 + n)

/-- JSON escape of one character (Python `json.dumps` with
`ensure_ascii=False`: only the backslash, the double quote and control
characters are escaped; non-ASCII characters pass through). -/
def escChar (c : Char) : String :=
  if c = '\\' then "\\\\"
  else if c = '"' then "\\\""
  else if c = '\n' then "\\n"
  else if c = '\t' then "\\t"
  else if c = '\r' then "\\r"
  else if c.toNat < 32 then
    "\\u00" ++ String.mk [hexDigit (c.toNat / 16), hexDigit (c.toNat % 16)]
  else String.mk [c]

/-- JSON string literal, modelling how `json.dumps` renders a string. -/
def jstr (s : String) : String :=
  "\"" ++ String.join (s.data.map escChar) ++ "\""

/-- Indentation of `n` spaces. -/
def spaces (n : Nat) : String := String.mk (List.replicate n ' ')

/-- Model of Python `json.dumps(v, indent=2, ensure_ascii=False)` at current
indentation level `ind` (the source calls it with `ind = 0`). -/
def dumps (ind : Nat) : JVal → String
  | .null => "null"
  | .bool b => if b then "true" else "false"
  | .num n => toString n
  | .str s => jstr s
  | .arr xs =>
    if xs.isEmpty then "[]"
    else
      "[\n" ++
        String.intercalate ",\n"
          (xs.attach.map (fun x => spaces (ind + 2) ++ dumps (ind + 2) x.1)) ++
        "\n" ++ spaces ind ++ "]"
  | .obj kvs =>
    if kvs.isEmpty then "\x7b\x7d"
    else
      "\x7b\n" ++
        String.intercalate ",\n"
          (kvs.attach.map (fun kv =>
            spaces (ind + 2) ++ jstr kv.1.1 ++ ": " ++ dumps (ind + 2) kv.1.2)) ++
        "\n" ++ spaces ind ++ "\x7d"
termination_by v => sizeOf v
decreasing_by
  · have h := List.sizeOf_lt_of_mem x.2
    simp only [JVal.arr.sizeOf_spec]
    omega
  · have h := List.sizeOf_lt_of_mem kv.2
    have h2 : sizeOf kv.1.2 < sizeOf kv.1 := by
      obtain ⟨a, b⟩ := kv.1
      simp only [Prod.mk.sizeOf_spec]
      omega
    simp only [JVal.obj.sizeOf_spec]
    omega

/-- The `MODELS` dict (source lines 33-37). -/
def MODELS : List (String × String) :=
  [("search", "perplexity/sonar-pro-search"),
   ("context", "perplexity/sonar"),
   ("research", "perplexity/sonar-deep-research")]

/-- The `MODEL_DESCRIPTIONS` dict (source lines 39-43). -/
def MODEL_DESCRIPTIONS : List (String × String) :=
  [("search", "快速 API/文档搜索 (sonar-pro-search)"),
   ("context", "大上下文搜索 (sonar)"),
   ("research", "深度研究报告 (sonar-deep-research)")]

/-- The `SYSTEM_PROMPTS` dict (source lines 45-66). -/
def SYSTEM_PROMPTS : List (String × String) :=
  [("search",
    "你是一个专业的技术搜索助手。用户会询问关于 API、文档、技术问题等。\n" ++
    "请提供准确、简洁的答案，包含相关的代码示例和文档链接。\n" ++
    "回答使用中文。"),
   ("context",
    "你是一个专业的技术研究助手，擅长处理需要大量上下文的复杂问题。\n" ++
    "请提供详细、全面的答案，包含相关的代码示例、最佳实践和文档链接。\n" ++
    "回答使用中文。"),
   ("research",
    "你是一个专业的深度研究助手。用户会给你一个领域或问题，你需要：\n" ++
    "1. 全面调研该领域/问题的各个方面\n" ++
    "2. 提供详尽的研究报告，包括：\n" ++
    "   - 概述和背景\n" ++
    "   - 核心概念和原理\n" ++
    "   - 主要技术/方法/工具\n" ++
    "   - 最佳实践和常见陷阱\n" ++
    "   - 相关资源和文档链接\n" ++
    "   - 实际代码示例（如适用）\n" ++
    "3. 确保信息准确、全面、有深度\n" ++
    "\n" ++
    "回答使用中文，格式清晰，便于阅读。")]

/-- One `{"role": ..., "content": ...}` message of the chat payload. -/
structure Message where
  role : String
  content : String
deriving DecidableEq

/-- The request payload built at source lines 84-90:
`{"model": model, "messages": [...]}`. -/
structure Payload where
  model : String
  messages : List Message
deriving DecidableEq

/-- The possible outcomes of `urlopen(request, timeout=300)` followed by
`json.loads(response.read().decode("utf-8"))` (source lines 112-113), an
oracle parameter of the embedding:
* `ok parsed` — HTTP 200; `parsed` is the JSON decoding of the body,
  `none` when the body is not valid JSON (then `json.loads` raises
  `json.JSONDecodeError`);
* `httpError code reason body` — `HTTPError` raised; `body = none` models
  `e.fp` being `None`, otherwise `body = some (text, parsed)` where `text`
  is `e.read().decode("utf-8")` and `parsed` its JSON decoding (`none`
  when `json.loads(text)` would raise);
* `urlError reason` — a non-HTTP `URLError`;
* `timedOut` — the 300-second deadline passed and `TimeoutError` was
  raised. -/
inductive HttpOutcome where
  | ok : Option JVal → HttpOutcome
  | httpError : Nat → String → Option (String × Option JVal) → HttpOutcome
  | urlError : String → HttpOutcome
  | timedOut : HttpOutcome

/-- An entry printed to standard output: either a plain string, or a
non-string Python object passed to `print` (rendered by Python `str`). -/
inductive OutItem where
  | text : String → OutItem
  | pyObj : JVal → OutItem

/-- How `call_openrouter` finishes: return a content value, terminate via
`sys.exit`, or let an exception escape uncaught. -/
inductive CallOut where
  | content : JVal → CallOut
  | exited : Nat → CallOut
  | uncaught : PyExc → CallOut

/-- The observable effects of one `call_openrouter` run. -/
structure CallResult where
  out : CallOut
  stdout : List OutItem
  stderr : List String
  requestsSent : List Payload

/-- The `try`/`except` response handling of `call_openrouter` (source
lines 104-140), after the request was handed to `urlopen`: how the call
finishes and the lines it prints to stderr. -/
def handleTransport : HttpOutcome → CallOut × List String
  | .ok none => (.uncaught .jsonDecodeError, [])
  | .ok (some result) =>
    match extractChoice result with
    | .error e => (.uncaught e, [])
    | .ok (some content) => (.content content, [])
    | .ok none =>
      (.exited 1,
       ["错误: API 返回了意外的响应格式",
        "响应: " ++ dumps 0 result])
  | .httpError code reason body =>
    let errBody : String :=
      match body with
      | none => ""
      | some (text, _) => text
    let detail : List String :=
      if errBody = "" then []
      else
        match body with
        | some (_, some errJson) => ["错误详情: " ++ dumps 0 errJson]
        | some (text, none) => ["错误详情: " ++ text]
        | none => []
    (.exited 1, ("HTTP 错误 " ++ toString code ++ ": " ++ reason) :: detail)
  | .urlError reason => (.exited 1, ["网络错误: " ++ reason])
  | .timedOut => (.exited 1, ["错误: 请求超时 (300秒)"])

/-- The function `call_openrouter(query, mode, api_key)` (source lines 79-140).
The transport outcome is the `transport` parameter; `requestsSent` lists
the payloads handed to `urlopen`, in order. -/
def callOpenrouter (query mode apiKey : String) (transport : HttpOutcome) :
    CallResult :=
  match MODELS.lookup mode with
  | none => ⟨.uncaught .keyError, [], [], []⟩
  | some model =>
    match SYSTEM_PROMPTS.lookup mode with
    | none => ⟨.uncaught .keyError, [], [], []⟩
    | some sysPrompt =>
      let payload : Payload := ⟨model, [⟨"system", sysPrompt⟩, ⟨"user", query⟩]⟩
      match MODEL_DESCRIPTIONS.lookup mode with
      | none => ⟨.uncaught .keyError, [], [], []⟩
      | some desc =>
        let pre : List OutItem :=
          [.text ("\n正在使用 " ++ desc ++ " 进行搜索...\n"),
           .text ("模型: " ++ model),
           .text ("问题: " ++ query ++ "\n"),
           .text (String.mk (List.replicate 60 '-'))]
        let h := handleTransport transport
        ⟨h.1, pre, h.2, [payload]⟩

/-- The function `get_api_key()` (source lines 69-76): `env` is the value of
`os.environ.get("OPENROUTER_KEY")`.  `error lines` models printing `lines`
to stderr followed by `sys.exit(1)`. -/
def getApiKey (env : Option String) : Except (List String) String :=
  match env with
  | none =>
    .error ["错误: 未设置 OPENROUTER_KEY 环境变量",
            "请设置环境变量: export OPENROUTER_KEY=\x27your-api-key\x27"]
  | some s =>
    if s = "" then
      .error ["错误: 未设置 OPENROUTER_KEY 环境变量",
              "请设置环境变量: export OPENROUTER_KEY=\x27your-api-key\x27"]
    else .ok s

/-- The `choices=["search", "context", "research"]` of the `mode` argument
(source line 162). -/
def CHOICES : List String := ["search", "context", "research"]

/-- Modelled from argparse: on a `mode` outside `choices`, `parse_args`
prints a usage error naming the invalid choice to stderr and exits with
status 2. -/
def argparseErr (mode : String) : String :=
  "error: argument mode: invalid choice: " ++ mode

/-- The fixed Markdown header written at source lines 188-191, before the
response body. -/
def headerStr (desc query : String) : String :=
  "# Perplexity 搜索结果\n\n**模式**: " ++ desc ++
  "\n\n**问题**: " ++ query ++ "\n\n---\n\n"

/-- How the whole process finishes: normal return from `main` (exit status
0), `sys.exit(code)`, or an uncaught exception (stack trace). -/
inductive Outcome where
  | completed : Outcome
  | exitedWith : Nat → Outcome
  | uncaught : PyExc → Outcome
deriving DecidableEq

/-- The observable effects of one whole program run. -/
structure ProgResult where
  outcome : Outcome
  stdout : List OutItem
  stderr : List String
  envReads : Nat
  requestsSent : List Payload
  fileWrite : Option (String × String)

/-- The function `main()` (source lines 143-193) on parsed-out arguments
`mode query [-o output]`, environment value `env` for `OPENROUTER_KEY`,
transport outcome `transport`, and `fsOk` telling whether
`open(args.output, "w")` succeeds (when `false` the open raises `OSError`,
which nothing in the program catches).  `envReads` counts the
`os.environ.get` calls, `requestsSent` the payloads handed to `urlopen`,
and `fileWrite` the path and full content of the output file if one was
created. -/
def mainRun (mode query : String) (output : Option String)
    (env : Option String) (transport : HttpOutcome) (fsOk : Bool) :
    ProgResult :=
  if mode ∈ CHOICES then
    match getApiKey env with
    | .error errLines => ⟨.exitedWith 1, [], errLines, 1, [], none⟩
    | .ok theKey =>
      let call := callOpenrouter query mode theKey transport
      match call.out with
      | .exited c =>
        ⟨.exitedWith c, call.stdout, call.stderr, 1, call.requestsSent, none⟩
      | .uncaught e =>
        ⟨.uncaught e, call.stdout, call.stderr, 1, call.requestsSent, none⟩
      | .content result =>
        let banner : List OutItem :=
          [.text ("\n" ++ String.mk (List.replicate 60 '=')),
           .text "搜索结果:",
           .text (String.mk (List.replicate 60 '=') ++ "\n"),
           (match result with | .str s => .text s | v => .pyObj v)]
        let outSoFar := call.stdout ++ banner
        match output with
        | none =>
          ⟨.completed, outSoFar, call.stderr, 1, call.requestsSent, none⟩
        | some path =>
          if fsOk then
            match MODEL_DESCRIPTIONS.lookup mode with
            | none =>
              ⟨.uncaught .keyError, outSoFar, call.stderr, 1,
               call.requestsSent, none⟩
            | some desc =>
              match result with
              | .str s =>
                ⟨.completed,
                 outSoFar ++ [.text ("\n结果已保存到: " ++ path)],
                 call.stderr, 1, call.requestsSent,
                 some (path, headerStr desc query ++ s)⟩
              | _ =>
                -- f.write(result) on a non-string raises TypeError after
                -- the four header writes have happened
                ⟨.uncaught .typeError, outSoFar, call.stderr, 1,
                 call.requestsSent, some (path, headerStr desc query)⟩
          else
            ⟨.uncaught .osError, outSoFar, call.stderr, 1,
             call.requestsSent, none⟩
  else
    ⟨.exitedWith 2, [], [argparseErr mode], 0, [], none⟩

/-! Helper lemmas used by several claim proofs. -/

lemma mem_CHOICES_iff (mode : String) :
    mode ∈ CHOICES ↔ mode = "search" ∨ mode = "context" ∨ mode = "research" := by
  simp [CHOICES]

lemma callOpenrouter_search (query k : String) (t : HttpOutcome) :
    callOpenrouter query "search" k t =
      ⟨(handleTransport t).1,
       [.text ("\n正在使用 快速 API/文档搜索 (sonar-pro-search) 进行搜索...\n"),
        .text ("模型: perplexity/sonar-pro-search"),
        .text ("问题: " ++ query ++ "\n"),
        .text (String.mk (List.replicate 60 '-'))],
       (handleTransport t).2,
       [⟨"perplexity/sonar-pro-search",
         [⟨"system", (SYSTEM_PROMPTS.lookup "search").getD ""⟩,
          ⟨"user", query⟩]⟩]⟩ := rfl

lemma callOpenrouter_context (query k : String) (t : HttpOutcome) :
    callOpenrouter query "context" k t =
      ⟨(handleTransport t).1,
       [.text ("\n正在使用 大上下文搜索 (sonar) 进行搜索...\n"),
        .text ("模型: perplexity/sonar"),
        .text ("问题: " ++ query ++ "\n"),
        .text (String.mk (List.replicate 60 '-'))],
       (handleTransport t).2,
       [⟨"perplexity/sonar",
         [⟨"system", (SYSTEM_PROMPTS.lookup "context").getD ""⟩,
          ⟨"user", query⟩]⟩]⟩ := rfl

lemma callOpenrouter_research (query k : String) (t : HttpOutcome) :
    callOpenrouter query "research" k t =
      ⟨(handleTransport t).1,
       [.text ("\n正在使用 深度研究报告 (sonar-deep-research) 进行搜索...\n"),
        .text ("模型: perplexity/sonar-deep-research"),
        .text ("问题: " ++ query ++ "\n"),
        .text (String.mk (List.replicate 60 '-'))],
       (handleTransport t).2,
       [⟨"perplexity/sonar-deep-research",
         [⟨"system", (SYSTEM_PROMPTS.lookup "research").getD ""⟩,
          ⟨"user", query⟩]⟩]⟩ := rfl

/-! Claim theorems. -/

/-- C1: for every mode in `{search, context, research}`, the request payload
built by `call_openrouter` uses exactly the model identifier and
system-prompt text of the fixed tables (`search` → `perplexity/sonar-pro-search`,
`context` → `perplexity/sonar`, `research` → `perplexity/sonar-deep-research`,
each with its fixed system prompt); and for every mode string outside this
set, argument parsing terminates the process with non-zero status (argparse
status 2) before any network call or credential read is attempted (zero
transport invocations, zero environment reads). -/
theorem C1_mode_tables_and_rejection :
    (∀ query k : String, ∀ t : HttpOutcome,
      (callOpenrouter query "search" k t).requestsSent =
        [⟨"perplexity/sonar-pro-search",
          [⟨"system", (SYSTEM_PROMPTS.lookup "search").getD ""⟩,
           ⟨"user", query⟩]⟩] ∧
      (callOpenrouter query "context" k t).requestsSent =
        [⟨"perplexity/sonar",
          [⟨"system", (SYSTEM_PROMPTS.lookup "context").getD ""⟩,
           ⟨"user", query⟩]⟩] ∧
      (callOpenrouter query "research" k t).requestsSent =
        [⟨"perplexity/sonar-deep-research",
          [⟨"system", (SYSTEM_PROMPTS.lookup "research").getD ""⟩,
           ⟨"user", query⟩]⟩]) ∧
    (∀ mode : String, mode ∉ CHOICES →
      ∀ query : String, ∀ output env : Option String, ∀ t : HttpOutcome,
        ∀ fsOk : Bool,
        (mainRun mode query output env t fsOk).outcome = .exitedWith 2 ∧
        (mainRun mode query output env t fsOk).envReads = 0 ∧
        (mainRun mode query output env t fsOk).requestsSent = []) := by
  constructor
  · intro query k t
    exact ⟨rfl, rfl, rfl⟩
  · intro mode hmode query output env t fsOk
    simp [mainRun, if_neg hmode]

/-- Witness for C1 at mode `search`, the invalid mode `bogus`, and concrete
arguments. -/
theorem C1_witness :
    (callOpenrouter "q" "search" "k" .timedOut).requestsSent =
      [⟨"perplexity/sonar-pro-search",
        [⟨"system", (SYSTEM_PROMPTS.lookup "search").getD ""⟩,
         ⟨"user", "q"⟩]⟩] ∧
    (mainRun "bogus" "q" none none .timedOut true).outcome = .exitedWith 2 ∧
    (mainRun "bogus" "q" none none .timedOut true).envReads = 0 ∧
    (mainRun "bogus" "q" none none .timedOut true).requestsSent = [] := by
  refine ⟨(C1_mode_tables_and_rejection.1 "q" "k" .timedOut).1, ?_⟩
  exact C1_mode_tables_and_rejection.2 "bogus" (by decide) "q" none none
    .timedOut true

/-- C2: for every successful run with `-o` (`--output`) given, the bytes
written to the output file are the fixed header (`# Perplexity 搜索结果`,
`**模式**: <description>`, `**问题**: <query>`, `---`, each followed by a
blank line) followed by exactly the response string that the same run
passes to `print` on standard output (stdout entry 7); in particular the
file body ends with exactly the response text. -/
theorem C2_file_roundtrip (mode query path k : String) (result : JVal)
    (s : String) (hmode : mode ∈ CHOICES) (hk : k ≠ "")
    (hshape : extractChoice result = .ok (some (.str s))) :
    (mainRun mode query (some path) (some k) (.ok (some result)) true).outcome
        = .completed ∧
    ∃ desc : String,
      MODEL_DESCRIPTIONS.lookup mode = some desc ∧
      (mainRun mode query (some path) (some k) (.ok (some result)) true).fileWrite
          = some (path, headerStr desc query ++ s) ∧
      (mainRun mode query (some path) (some k) (.ok (some result)) true).stdout[7]?
          = some (.text s) := by
  have hkey : getApiKey (some k) = .ok k := by simp [getApiKey, hk]
  have hht : handleTransport (.ok (some result)) = (.content (.str s), []) := by
    simp [handleTransport, hshape]
  rcases (mem_CHOICES_iff mode).1 hmode with rfl | rfl | rfl
  · refine ⟨?_, "快速 API/文档搜索 (sonar-pro-search)", rfl, ?_, ?_⟩ <;>
      simp [mainRun, CHOICES, hkey, callOpenrouter_search, hht,
        MODEL_DESCRIPTIONS, List.lookup]
  · refine ⟨?_, "大上下文搜索 (sonar)", rfl, ?_, ?_⟩ <;>
      simp [mainRun, CHOICES, hkey, callOpenrouter_context, hht,
        MODEL_DESCRIPTIONS, List.lookup]
  · refine ⟨?_, "深度研究报告 (sonar-deep-research)", rfl, ?_, ?_⟩ <;>
      simp [mainRun, CHOICES, hkey, callOpenrouter_research, hht,
        MODEL_DESCRIPTIONS, List.lookup]

/-- Witness for C2 at mode `search`, query `q`, path `out.md`, key `k` and
the well-shaped body `{"choices": [{"message": {"content": "X"}}]}`. -/
theorem C2_witness :
    (mainRun "search" "q" (some "out.md") (some "k")
        (.ok (some (.obj [("choices",
          .arr [.obj [("message", .obj [("content", .str "X")])]])])))
        true).outcome = .completed ∧
    ∃ desc : String,
      MODEL_DESCRIPTIONS.lookup "search" = some desc ∧
      (mainRun "search" "q" (some "out.md") (some "k")
          (.ok (some (.obj [("choices",
            .arr [.obj [("message", .obj [("content", .str "X")])]])])))
          true).fileWrite = some ("out.md", headerStr desc "q" ++ "X") ∧
      (mainRun "search" "q" (some "out.md") (some "k")
          (.ok (some (.obj [("choices",
            .arr [.obj [("message", .obj [("content", .str "X")])]])])))
          true).stdout[7]? = some (.text "X") :=
  C2_file_roundtrip "search" "q" "out.md" "k"
    (.obj [("choices", .arr [.obj [("message", .obj [("content", .str "X")])]])])
    "X" (by decide) (by decide) rfl

lemma any_key_eq_isSome (key : String) (kvs : List (String × JVal)) :
    (kvs.any (fun kv => kv.1 == key)) = (kvs.lookup key).isSome := by
  induction kvs with
  | nil => rfl
  | cons kv rest ih =>
    obtain ⟨k1, v1⟩ := kv
    by_cases h : k1 = key
    · subst h
      simp [List.lookup]
    · have h1 : (k1 == key) = false := by simp [h]
      have h2 : (key == k1) = false := by simp [Ne.symm h]
      simp [List.lookup, h1, h2, ih]

lemma extractChoice_obj_missing (kvs : List (String × JVal))
    (h : kvs.lookup "choices" = none) :
    extractChoice (.obj kvs) = .ok none := by
  simp [extractChoice, pyContainsStr, any_key_eq_isSome, h, Bind.bind,
    Except.bind, Pure.pure, Except.pure]

lemma extractChoice_obj_empty (kvs : List (String × JVal))
    (h : kvs.lookup "choices" = some (.arr [])) :
    extractChoice (.obj kvs) = .ok none := by
  simp [extractChoice, pyContainsStr, any_key_eq_isSome, h, pyGetStr, pyLen,
    Bind.bind, Except.bind, Pure.pure, Except.pure]

/-- C3 counterexample: on the HTTP-200 body
`{"choices": [{}]}` — a choices element lacking the nested message content
string — `call_openrouter` does NOT report the unexpected shape and does
NOT terminate via `sys.exit`: the subscript `result["choices"][0]["message"]`
raises a `KeyError` that no `except` clause catches, so nothing is printed
to the error stream. -/
theorem C3_counterexample :
    (callOpenrouter "q" "search" "k"
        (.ok (some (.obj [("choices", .arr [.obj []])])))).out =
      .uncaught .keyError ∧
    (callOpenrouter "q" "search" "k"
        (.ok (some (.obj [("choices", .arr [.obj []])])))).stderr = [] ∧
    (callOpenrouter "q" "search" "k"
        (.ok (some (.obj [("choices", .arr [.obj []])])))).out ≠
      .exited 1 :=
  ⟨rfl, rfl, fun h => nomatch h⟩

/-- C3 (amended): for every HTTP-200 response body whose decoded JSON is an
object lacking a `choices` key, or whose `choices` value is the empty list,
`call_openrouter` reports the unexpected shape — including the
pretty-printed JSON of the body — to the error stream and terminates with
non-zero exit status.  (A non-empty `choices` whose first element lacks the
nested message content string instead raises an uncaught exception, see the
counterexample.) -/
theorem C3_malformed_body_report (kvs : List (String × JVal))
    (query mode k : String) (hmode : mode ∈ CHOICES)
    (hbad : kvs.lookup "choices" = none ∨
      kvs.lookup "choices" = some (.arr [])) :
    (callOpenrouter query mode k (.ok (some (.obj kvs)))).out = .exited 1 ∧
    (callOpenrouter query mode k (.ok (some (.obj kvs)))).stderr =
      ["错误: API 返回了意外的响应格式",
       "响应: " ++ dumps 0 (.obj kvs)] := by
  have hex : extractChoice (.obj kvs) = .ok none := by
    rcases hbad with h | h
    · exact extractChoice_obj_missing kvs h
    · exact extractChoice_obj_empty kvs h
  have hht : handleTransport (.ok (some (.obj kvs))) =
      (.exited 1,
       ["错误: API 返回了意外的响应格式",
        "响应: " ++ dumps 0 (.obj kvs)]) := by
    simp [handleTransport, hex]
  rcases (mem_CHOICES_iff mode).1 hmode with rfl | rfl | rfl <;>
    simp [callOpenrouter_search, callOpenrouter_context,
      callOpenrouter_research, hht]

/-- Witness for the amended C3 at the body `{"foo": null}`, which lacks
`choices`. -/
theorem C3_witness :
    (callOpenrouter "q" "search" "k"
        (.ok (some (.obj [("foo", .null)])))).out = .exited 1 ∧
    (callOpenrouter "q" "search" "k"
        (.ok (some (.obj [("foo", .null)])))).stderr =
      ["错误: API 返回了意外的响应格式",
       "响应: " ++ dumps 0 (.obj [("foo", .null)])] :=
  C3_malformed_body_report [("foo", .null)] "q" "search" "k"
    (by decide) (Or.inl rfl)

/-- C4: if the `OPENROUTER_KEY` environment variable is absent or empty,
the program prints the two-line diagnostic naming the variable and how to
set it to stderr, and exits with status 1 before any request is constructed
and before any network call is made (zero transport invocations). -/
theorem C4_missing_credential (mode query : String) (output : Option String)
    (env : Option String) (t : HttpOutcome) (fsOk : Bool)
    (hmode : mode ∈ CHOICES) (henv : env = none ∨ env = some "") :
    (mainRun mode query output env t fsOk).outcome = .exitedWith 1 ∧
    (mainRun mode query output env t fsOk).stderr =
      ["错误: 未设置 OPENROUTER_KEY 环境变量",
       "请设置环境变量: export OPENROUTER_KEY=\x27your-api-key\x27"] ∧
    (mainRun mode query output env t fsOk).requestsSent = [] ∧
    (mainRun mode query output env t fsOk).stdout = [] ∧
    (mainRun mode query output env t fsOk).fileWrite = none := by
  rcases henv with rfl | rfl <;>
    simp [mainRun, if_pos hmode, getApiKey]

/-- Witness for C4 at mode `search` with the variable absent. -/
theorem C4_witness :
    (mainRun "search" "q" none none .timedOut true).outcome =
      .exitedWith 1 ∧
    (mainRun "search" "q" none none .timedOut true).stderr =
      ["错误: 未设置 OPENROUTER_KEY 环境变量",
       "请设置环境变量: export OPENROUTER_KEY=\x27your-api-key\x27"] ∧
    (mainRun "search" "q" none none .timedOut true).requestsSent = [] ∧
    (mainRun "search" "q" none none .timedOut true).stdout = [] ∧
    (mainRun "search" "q" none none .timedOut true).fileWrite = none :=
  C4_missing_credential "search" "q" none none .timedOut true
    (by decide) (Or.inl rfl)

/-- C5: for every HTTP error-status response, the program prints the status
code and reason phrase to the error stream; if the error body is non-empty
it prints the pretty-printed parsed JSON detail, falling back to the raw
body text when JSON parsing fails; and it terminates with non-zero exit
status. -/
theorem C5_http_error (mode query k reason : String) (code : Nat)
    (body : Option (String × Option JVal)) (hmode : mode ∈ CHOICES) :
    (callOpenrouter query mode k (.httpError code reason body)).out =
      .exited 1 ∧
    (callOpenrouter query mode k (.httpError code reason body)).stderr =
      ("HTTP 错误 " ++ toString code ++ ": " ++ reason) ::
        (match body with
         | none => []
         | some (text, parsed) =>
           if text = "" then []
           else
             match parsed with
             | some errJson => ["错误详情: " ++ dumps 0 errJson]
             | none => ["错误详情: " ++ text]) := by
  have hht : handleTransport (.httpError code reason body) =
      (.exited 1,
       ("HTTP 错误 " ++ toString code ++ ": " ++ reason) ::
         (match body with
          | none => []
          | some (text, parsed) =>
            if text = "" then []
            else
              match parsed with
              | some errJson => ["错误详情: " ++ dumps 0 errJson]
              | none => ["错误详情: " ++ text])) := by
    rcases body with _ | ⟨text, parsed⟩
    · simp [handleTransport]
    · by_cases ht : text = "" <;> rcases parsed with _ | errJson <;>
        simp_all [handleTransport]
  rcases (mem_CHOICES_iff mode).1 hmode with rfl | rfl | rfl <;>
    simp [callOpenrouter_search, callOpenrouter_context,
      callOpenrouter_research, hht]

/-- Witness for C5: a 401 with body `{"error": "invalid key"}` yields
status 401 plus the parsed error detail on stderr and exit 1. -/
theorem C5_witness :
    (callOpenrouter "q" "search" "k"
        (.httpError 401 "Unauthorized"
          (some ("\x7b\"error\": \"invalid key\"\x7d",
                 some (.obj [("error", .str "invalid key")]))))).out =
      .exited 1 ∧
    (callOpenrouter "q" "search" "k"
        (.httpError 401 "Unauthorized"
          (some ("\x7b\"error\": \"invalid key\"\x7d",
                 some (.obj [("error", .str "invalid key")]))))).stderr =
      ["HTTP 错误 401: Unauthorized",
       "错误详情: " ++ dumps 0 (.obj [("error", .str "invalid key")])] := by
  have h := C5_http_error "search" "q" "k" "Unauthorized" 401
    (some ("\x7b\"error\": \"invalid key\"\x7d",
           some (.obj [("error", .str "invalid key")]))) (by decide)
  simpa using h

/-- C6: for every run in which the HTTP request raises the 300-second
`TimeoutError`, the program prints the fixed timeout message
`错误: 请求超时 (300秒)` to the error stream — the dedicated timeout branch,
not the generic network-error branch — and terminates with non-zero exit
status. -/
theorem C6_timeout (mode query k : String) (hmode : mode ∈ CHOICES) :
    (callOpenrouter query mode k .timedOut).out = .exited 1 ∧
    (callOpenrouter query mode k .timedOut).stderr =
      ["错误: 请求超时 (300秒)"] := by
  rcases (mem_CHOICES_iff mode).1 hmode with rfl | rfl | rfl <;>
    exact ⟨rfl, rfl⟩

/-- Witness for C6 at mode `context`. -/
theorem C6_witness :
    (callOpenrouter "q" "context" "k" .timedOut).out = .exited 1 ∧
    (callOpenrouter "q" "context" "k" .timedOut).stderr =
      ["错误: 请求超时 (300秒)"] :=
  C6_timeout "context" "q" "k" (by decide)

lemma mainRun_fileWrite_cases (mode query : String) (output : Option String)
    (env : Option String) (t : HttpOutcome) (fsOk : Bool) :
    (mainRun mode query output env t fsOk).fileWrite = none ∨
    (mainRun mode query output env t fsOk).outcome = .completed ∨
    (mainRun mode query output env t fsOk).outcome = .uncaught .typeError := by
  unfold mainRun
  split
  · rcases h : getApiKey env with lines | theKey
    · simp
    · simp only
      rcases (callOpenrouter query mode theKey t).out with result | c | e
      · rcases output with _ | path
        · simp
        · rcases fsOk with _ | _
          · simp
          · simp only [Bool.true_eq_false]
            rcases MODEL_DESCRIPTIONS.lookup mode with _ | desc
            · simp
            · rcases result with _ | b | n | s | xs | kvs <;> simp
      · simp
      · simp
  · simp

/-- C7: every run that fails with a validation, credential,
malformed-response-shape, HTTP-status, network, or timeout error — i.e.
every run terminated by `sys.exit` — writes no output file, even when
`-o` was supplied: the filesystem state named by the output path is
unchanged on every such error path. -/
theorem C7_no_file_on_error (mode query : String) (output : Option String)
    (env : Option String) (t : HttpOutcome) (fsOk : Bool) (c : Nat)
    (h : (mainRun mode query output env t fsOk).outcome = .exitedWith c) :
    (mainRun mode query output env t fsOk).fileWrite = none := by
  rcases mainRun_fileWrite_cases mode query output env t fsOk with
    hw | ho | ho
  · exact hw
  · rw [ho] at h
    exact absurd h (by simp)
  · rw [ho] at h
    exact absurd h (by simp)

/-- Witness for C7: an HTTP 500 error run with `-o` supplied writes no
file. -/
theorem C7_witness :
    (mainRun "search" "q" (some "out.md") (some "k")
        (.httpError 500 "Server Error" none) true).outcome =
      .exitedWith 1 ∧
    (mainRun "search" "q" (some "out.md") (some "k")
        (.httpError 500 "Server Error" none) true).fileWrite = none :=
  ⟨rfl,
   C7_no_file_on_error "search" "q" (some "out.md") (some "k")
     (.httpError 500 "Server Error" none) true 1 rfl⟩

/-- C8: a failure raised while opening the output file is not caught
anywhere in the program: on an otherwise fully successful run, if
`open(args.output, "w")` raises, the process terminates with an uncaught
`OSError` (a stack trace) — the `Outcome.uncaught` constructor — rather
than with the `Outcome.exitedWith` termination used by every caught and
formatted failure category. -/
theorem C8_file_failure_uncaught (mode query path k : String) (result : JVal)
    (s : String) (hmode : mode ∈ CHOICES) (hk : k ≠ "")
    (hshape : extractChoice result = .ok (some (.str s))) :
    (mainRun mode query (some path) (some k) (.ok (some result))
        false).outcome = .uncaught .osError ∧
    (mainRun mode query (some path) (some k) (.ok (some result))
        false).fileWrite = none := by
  have hkey : getApiKey (some k) = .ok k := by simp [getApiKey, hk]
  have hht : handleTransport (.ok (some result)) = (.content (.str s), []) := by
    simp [handleTransport, hshape]
  rcases (mem_CHOICES_iff mode).1 hmode with rfl | rfl | rfl <;>
    simp [mainRun, CHOICES, hkey, callOpenrouter_search,
      callOpenrouter_context, callOpenrouter_research, hht]

/-- Witness for C8 at mode `search` with a well-shaped body and a failing
file open. -/
theorem C8_witness :
    (mainRun "search" "q" (some "out.md") (some "k")
        (.ok (some (.obj [("choices",
          .arr [.obj [("message", .obj [("content", .str "X")])]])])))
        false).outcome = .uncaught .osError ∧
    (mainRun "search" "q" (some "out.md") (some "k")
        (.ok (some (.obj [("choices",
          .arr [.obj [("message", .obj [("content", .str "X")])]])])))
        false).fileWrite = none :=
  C8_file_failure_uncaught "search" "q" "out.md" "k"
    (.obj [("choices", .arr [.obj [("message", .obj [("content", .str "X")])]])])
    "X" (by decide) (by decide) rfl

/-- C9: request construction is deterministic — for every pair of runs with
the same mode and the same query the assembled payload is identical (even
across different keys and transport outcomes) — and the payload always
consists of the table's model identifier plus exactly two messages, the
system message then the user message; at most one request is ever sent per
invocation (no retry logic). -/
theorem C9_request_deterministic :
    (∀ query mode k1 k2 : String, ∀ t1 t2 : HttpOutcome,
      (callOpenrouter query mode k1 t1).requestsSent =
        (callOpenrouter query mode k2 t2).requestsSent) ∧
    (∀ query mode k : String, ∀ t : HttpOutcome, mode ∈ CHOICES →
      ∃ model sysPrompt : String,
        MODELS.lookup mode = some model ∧
        SYSTEM_PROMPTS.lookup mode = some sysPrompt ∧
        (callOpenrouter query mode k t).requestsSent =
          [⟨model, [⟨"system", sysPrompt⟩, ⟨"user", query⟩]⟩]) ∧
    (∀ query mode k : String, ∀ t : HttpOutcome,
      (callOpenrouter query mode k t).requestsSent.length ≤ 1) := by
  refine ⟨?_, ?_, ?_⟩
  · intro query mode k1 k2 t1 t2
    cases h1 : MODELS.lookup mode <;>
      cases h2 : SYSTEM_PROMPTS.lookup mode <;>
        cases h3 : MODEL_DESCRIPTIONS.lookup mode <;>
          simp [callOpenrouter, h1, h2, h3]
  · intro query mode k t hmode
    rcases (mem_CHOICES_iff mode).1 hmode with rfl | rfl | rfl <;>
      exact ⟨_, _, rfl, rfl, rfl⟩
  · intro query mode k t
    cases h1 : MODELS.lookup mode <;>
      cases h2 : SYSTEM_PROMPTS.lookup mode <;>
        cases h3 : MODEL_DESCRIPTIONS.lookup mode <;>
          simp [callOpenrouter, h1, h2, h3]

/-- Witness for C9 at mode `research`, across two different keys and
transport outcomes. -/
theorem C9_witness :
    (callOpenrouter "q" "research" "k1" .timedOut).requestsSent =
      (callOpenrouter "q" "research" "k2" (.urlError "x")).requestsSent ∧
    (∃ model sysPrompt : String,
      MODELS.lookup "research" = some model ∧
      SYSTEM_PROMPTS.lookup "research" = some sysPrompt ∧
      (callOpenrouter "q" "research" "k1" .timedOut).requestsSent =
        [⟨model, [⟨"system", sysPrompt⟩, ⟨"user", "q"⟩]⟩]) ∧
    (callOpenrouter "q" "research" "k1" .timedOut).requestsSent.length ≤ 1 :=
  ⟨C9_request_deterministic.1 "q" "research" "k1" "k2" .timedOut
     (.urlError "x"),
   C9_request_deterministic.2.1 "q" "research" "k1" .timedOut (by decide),
   C9_request_deterministic.2.2 "q" "research" "k1" .timedOut⟩

/-- C10: if the HTTP call returns status 200 but the response body is not
valid JSON, the `json.loads` decode error is not among the caught exception
types (`HTTPError`, `URLError`, `TimeoutError`), so the program terminates
with an uncaught exception (stack trace) and prints nothing to the error
stream, instead of the formatted malformed-response diagnostic used for
wrong-shaped JSON bodies. -/
theorem C10_invalid_json_uncaught (mode query k : String)
    (output : Option String) (fsOk : Bool)
    (hmode : mode ∈ CHOICES) (hk : k ≠ "") :
    (callOpenrouter query mode k (.ok none)).out =
      .uncaught .jsonDecodeError ∧
    (callOpenrouter query mode k (.ok none)).stderr = [] ∧
    (mainRun mode query output (some k) (.ok none) fsOk).outcome =
      .uncaught .jsonDecodeError := by
  have hkey : getApiKey (some k) = .ok k := by simp [getApiKey, hk]
  rcases (mem_CHOICES_iff mode).1 hmode with rfl | rfl | rfl <;>
    refine ⟨rfl, rfl, ?_⟩ <;>
      simp [mainRun, CHOICES, hkey, callOpenrouter_search,
        callOpenrouter_context, callOpenrouter_research, handleTransport]

/-- Witness for C10 at mode `search` with a 200 response whose body is not
valid JSON. -/
theorem C10_witness :
    (callOpenrouter "q" "search" "k" (.ok none)).out =
      .uncaught .jsonDecodeError ∧
    (callOpenrouter "q" "search" "k" (.ok none)).stderr = [] ∧
    (mainRun "search" "q" none (some "k") (.ok none) true).outcome =
      .uncaught .jsonDecodeError :=
  C10_invalid_json_uncaught "search" "q" "k" none true (by decide) (by decide)

end PerplexitySrch
